import Mathlib

/-!
A shallow embedding of the agent orchestration and job-scheduling subsystem
of stockpulse-ai, covering:

* `backend/agents/base.py` — `AgentResult`, `AgentConfig`, `BaseAgent.run`,
  `AgentRegistry.run_agent`, `AgentRegistry._persist_result`;
* `backend/api/agents.py` (the `7d1eb49` side of the merged file) —
  `_insert_running_row`, `_execute_agent_async`, `_dispatch`,
  `_update_run_row`, and the `POST /agents/<name>/run` endpoint body;
* `backend/agents/openclaw_engine.py` — `OpenClawBridge.send_task`,
  `OpenClawBridge.run_task` behaviour as seen by `_dispatch`;
* `backend/scheduler.py` — `SchedulerManager.trigger_job` and
  `SchedulerManager.is_market_hours`.

Python dicts of agents / job descriptors are modelled as association lists;
the sqlite `agent_runs` table as a list of rows plus an AUTOINCREMENT
counter; wall-clock timestamps and thread scheduling as explicit
parameters; Python exceptions as an explicit outcome constructor.
Floating-point fields (`estimated_cost`, `temperature`) are only copied
around by the modelled code paths, never computed with, so they are
carried as integers.
-/

set_option autoImplicit false

namespace StockPulse

/-- Association-list lookup: the model of `dict.get(name)`. -/
def lookupStr {α : Type} : List (String × α) → String → Option α
  | [], _ => none
  | (k, v) :: rest, key => if k = key then some v else lookupStr rest key

/-- Association-list overwrite: the model of `dict[name] = value`
(in-place mutation of the object stored under an existing key). -/
def updateStr {α : Type} : List (String × α) → String → α → List (String × α)
  | [], _, _ => []
  | (k, v) :: rest, key, v' =>
    if k = key then (k, v') :: rest else (k, v) :: updateStr rest key v'

/-- `AgentStatus` enum from `backend/agents/base.py`. -/
inductive AgentStatus where
  | idle
  | running
  | success
  | error
deriving DecidableEq, Repr

/-- `AgentResult` dataclass from `backend/agents/base.py`.
`raw_output` is ephemeral (never persisted, never read by the modelled
paths) and is omitted. -/
structure AgentResult where
  agentName : String
  framework : String
  status : String
  output : String
  tokensInput : Nat := 0
  tokensOutput : Nat := 0
  estimatedCost : Int := 0
  durationMs : Nat := 0
  startedAt : String := ""
  completedAt : String := ""
  error : Option String := none
  metadata : List (String × String) := []
deriving DecidableEq, Repr

/-- `AgentConfig` dataclass from `backend/agents/base.py`. -/
structure AgentConfig where
  name : String
  role : String := ""
  goal : String := ""
  backstory : String := ""
  model : String := "claude-haiku-4-5-20251001"
  provider : String := "anthropic"
  maxTokens : Nat := 4096
  temperature : Int := 0
  enabled : Bool := true
  tags : List String := []
deriving DecidableEq, Repr

/-- Inputs dict passed to an agent (`Dict[str, Any]`), modelled as a
string-keyed association list; the modelled code paths only test it for
emptiness and serialize it. -/
abbrev Inputs := List (String × String)

/-- Outcome of a subclass's `execute(inputs)`: a returned `AgentResult`
or a raised Python exception carrying a message. -/
inductive ExecOutcome where
  | ok (r : AgentResult)
  | raises (msg : String)

/-- Runtime agent object (`BaseAgent` subclass instance): config plus
mutable `_status`, `_last_result`, `_run_count`, and the subclass's
`execute` behaviour. -/
structure Agent where
  config : AgentConfig
  status : AgentStatus := .idle
  lastResult : Option AgentResult := none
  runCount : Nat := 0
  exec : Inputs → ExecOutcome

/-- Wall-clock observations made by one `BaseAgent.run` call
(`datetime.utcnow().isoformat()` at start and end, and the elapsed
`time.time()` delta in milliseconds). -/
structure RunClock where
  startedAt : String
  completedAt : String
  durationMs : Nat
deriving DecidableEq, Repr

/-- `BaseAgent.run(inputs)` from `backend/agents/base.py` lines 96–125:
sets status to running, calls `execute`; on normal return stamps the
result with timing, updates status/last_result, increments `_run_count`;
on an exception builds a fresh error result with `framework='native'`
and the exception message, updates status/last_result, and does NOT
increment `_run_count`. Returns the result and the mutated agent. -/
def BaseAgent.run (clock : RunClock) (a : Agent) (inputs : Inputs) :
    AgentResult × Agent :=
  match a.exec inputs with
  | .ok r =>
    let r' := { r with
      startedAt := clock.startedAt
      completedAt := clock.completedAt
      durationMs := clock.durationMs }
    (r', { a with
      status := if r.status = "success" then .success else .error
      lastResult := some r'
      runCount := a.runCount + 1 })
  | .raises msg =>
    let r : AgentResult := {
      agentName := a.config.name
      framework := "native"
      status := "error"
      output := ""
      error := some msg
      startedAt := clock.startedAt
      completedAt := clock.completedAt
      durationMs := clock.durationMs }
    (r, { a with status := .error, lastResult := some r })

/-- One row of the sqlite `agent_runs` table (schema created in
`AgentRegistry._init_db`; `created_at DEFAULT CURRENT_TIMESTAMP` is not
read by any modelled path and is omitted). -/
structure RunRow where
  id : Nat
  agentName : String
  framework : String
  status : String
  inputData : Option String := none
  outputData : Option String := none
  tokensInput : Nat := 0
  tokensOutput : Nat := 0
  estimatedCost : Int := 0
  durationMs : Nat := 0
  error : Option String := none
  metadata : Option String := none
  startedAt : Option String := none
  completedAt : Option String := none
deriving DecidableEq, Repr

/-- The `agent_runs` table: rows plus the AUTOINCREMENT counter
(sqlite assigns ids starting from 1). -/
structure DB where
  rows : List RunRow
  nextId : Nat := 1
deriving DecidableEq, Repr

/-- `json.dumps` / `str()` serialization of an inputs dict; the modelled
paths never parse it back, so any injective rendering serves. -/
def encodeInputs (inputs : Inputs) : String :=
  String.intercalate "," (inputs.map (fun p => p.1 ++ "=" ++ p.2))

/-- `AgentRegistry._persist_result` (`base.py` lines 221–249): INSERT of
one row built from the result, with `output[:10000]` truncation and
falsy-to-NULL conversion; the whole body is wrapped in try/except, so a
failing write (`dbFail = true`) leaves the table untouched and raises
nothing. -/
def persistResult (dbFail : Bool) (db : DB) (r : AgentResult)
    (inputs : Inputs) : DB :=
  if dbFail then db
  else
    let row : RunRow := {
      id := db.nextId
      agentName := r.agentName
      framework := r.framework
      status := r.status
      inputData := if inputs = [] then none else some (encodeInputs inputs)
      outputData := if r.output = "" then none else some (r.output.take 10000)
      tokensInput := r.tokensInput
      tokensOutput := r.tokensOutput
      estimatedCost := r.estimatedCost
      durationMs := r.durationMs
      error := r.error
      metadata := if r.metadata = [] then none
                  else some (encodeInputs r.metadata)
      startedAt := some r.startedAt
      completedAt := some r.completedAt }
    { rows := db.rows ++ [row], nextId := db.nextId + 1 }

/-- `AgentRegistry`: the in-memory agent dict (the db path and lock are
operational details not observable in the sequential model). -/
structure Registry where
  agents : List (String × Agent)

/-- The error result built by `run_agent` for a disabled agent
(`base.py` lines 209–215). -/
def disabledResult (name : String) : AgentResult := {
  agentName := name
  framework := "disabled"
  status := "error"
  output := ""
  error := some "Agent is disabled" }

/-- `AgentRegistry.run_agent(name, inputs)` (`base.py` lines 200–219):
returns `None` when the name is not registered; returns an unpersisted
`framework='disabled'` error result when the agent is disabled; otherwise
runs the agent, persists the result (write failures swallowed by
`_persist_result`), and returns it. Result, updated registry and updated
table are returned. -/
def AgentRegistry.runAgent (clock : RunClock) (dbFail : Bool)
    (reg : Registry) (name : String) (inputs : Inputs) (db : DB) :
    Option AgentResult × Registry × DB :=
  match lookupStr reg.agents name with
  | none => (none, reg, db)
  | some agent =>
    if agent.config.enabled = false then
      (some (disabledResult name), reg, db)
    else
      let (r, agent') := BaseAgent.run clock agent inputs
      let reg' : Registry := ⟨updateStr reg.agents name agent'⟩
      let db' := persistResult dbFail db r inputs
      (some r, reg', db')

/-- Outcome of `OpenClawBridge.send_task` (`openclaw_engine.py` lines
132–186): the real method returns a task id, returns `None` when the
connect or the websocket send fails (both failure paths are caught
internally), or — when a mocked/abnormal bridge is substituted — raises. -/
inductive SendOutcome where
  | raises (msg : String)
  | noTaskId
  | taskId (tid : String)

/-- Observable behaviour of one `OpenClawBridge` instance as seen by
`_dispatch`: whether `is_available()` answers true (covers the ping and
the short-timeout probe connect, both of which catch internally and
yield a Bool), the outcome of `send_task`, and the `AgentResult` that
`poll_result(tid, …)` produces for a given task id (`poll_result` always
returns an `AgentResult` with `framework='openclaw'` by construction). -/
structure GatewayBehavior where
  available : Bool
  send : SendOutcome
  pollRes : String → AgentResult

/-- The error result `run_task` builds when `send_task` returns `None`
(`openclaw_engine.py` lines 317–324). -/
def sendFailResult (name : String) : AgentResult := {
  agentName := name
  framework := "openclaw"
  status := "error"
  output := ""
  error := some "Failed to send task to OpenClaw (not connected or send failed)" }

/-- `OpenClawBridge.run_task` (`openclaw_engine.py` lines 308–325):
`send_task` then `poll_result`; a `None` task id yields the
`framework='openclaw'` send-failure error result, while an exception in
`send_task` propagates to the caller (modelled as `Except.error`). -/
def OpenClawBridge.runTask (gw : GatewayBehavior) (name : String) :
    Except String AgentResult :=
  match gw.send with
  | .raises msg => .error msg
  | .noTaskId => .ok (sendFailResult name)
  | .taskId tid => .ok (gw.pollRes tid)

/-- Gateway-side operations `_dispatch` can perform, recorded as a trace:
constructing the `OpenClawBridge`, the `is_available()` probe, and the
`run_task` send. -/
inductive GatewayOp where
  | construct
  | probe
  | send
deriving DecidableEq, Repr

/-- The synthetic result `_dispatch` builds when the agent is missing
from the registry (`api/agents.py` lines 864–871). -/
def notFoundResult (name : String) : AgentResult := {
  agentName := name
  framework := "native"
  status := "error"
  output := ""
  error := some ("Agent " ++ name ++ " not found in registry") }

/-- `_dispatch(registry, agent_name, params)` from `backend/api/agents.py`
lines 830–871: when the `Config.OPENCLAW_ENABLED` flag is set it
constructs a bridge and probes availability; if available it returns
`run_task`'s result directly (whatever its status), and only an
*exception* out of that block falls through; the fallback calls the
agent's own `run()` (mutating the agent held by the registry), or builds
a synthetic not-found error result. Nothing here writes to `agent_runs`.
Returns the result, the trace of gateway operations, and the registry
with the possibly-mutated agent. -/
def dispatch (openclawEnabled : Bool) (gw : GatewayBehavior)
    (clock : RunClock) (reg : Registry) (name : String) (params : Inputs) :
    AgentResult × List GatewayOp × Registry :=
  let native : List GatewayOp → AgentResult × List GatewayOp × Registry :=
    fun ops =>
      match lookupStr reg.agents name with
      | some agent =>
        let (r, agent') := BaseAgent.run clock agent params
        (r, ops, ⟨updateStr reg.agents name agent'⟩)
      | none => (notFoundResult name, ops, reg)
  if openclawEnabled then
    if gw.available then
      match OpenClawBridge.runTask gw name with
      | .ok r => (r, [.construct, .probe, .send], reg)
      | .error _ => native [.construct, .probe, .send]
    else
      native [.construct, .probe]
  else
    native []

/-- `_insert_running_row(agent_name, params, started_at)`
(`api/agents.py` lines 779–795): INSERT of a placeholder row with
`framework='native'`, `status='running'`, returning its rowid; the body
is wrapped in try/except and a failed write (`insertOk = false`) leaves
the table untouched and returns 0. -/
def insertRunningRow (insertOk : Bool) (db : DB) (agentName : String)
    (inputData : Option String) (startedAt : String) : DB × Nat :=
  if insertOk then
    let row : RunRow := {
      id := db.nextId
      agentName := agentName
      framework := "native"
      status := "running"
      inputData := inputData
      startedAt := some startedAt }
    ({ rows := db.rows ++ [row], nextId := db.nextId + 1 }, db.nextId)
  else
    (db, 0)

/-- `_update_run_row(run_id, result)` (`api/agents.py` lines 874–906):
UPDATE of the placeholder row keyed by id with the final result's
fields (output truncated to 10000 chars, falsy `completed_at` replaced
by a fresh timestamp `fallbackTs`); the body is wrapped in try/except,
so a failed write (`updateOk = false`) leaves the table untouched and
raises nothing. -/
def updateRunRow (updateOk : Bool) (db : DB) (runId : Nat)
    (r : AgentResult) (fallbackTs : String) : DB :=
  if updateOk then
    { db with rows := db.rows.map (fun row =>
        if row.id = runId then
          { row with
            framework := r.framework
            status := r.status
            outputData := if r.output = "" then none
                          else some (r.output.take 10000)
            tokensInput := r.tokensInput
            tokensOutput := r.tokensOutput
            estimatedCost := r.estimatedCost
            durationMs := r.durationMs
            error := r.error
            completedAt := some (if r.completedAt = "" then fallbackTs
                                 else r.completedAt) }
        else row) }
  else db

/-- `_execute_agent_async(registry, agent_name, params, run_id)`
(`api/agents.py` lines 798–827): dispatches, then — only when the
pre-inserted row id is non-zero — updates that row with the terminal
result (the SSE notification is fire-and-forget and unmodelled). -/
def executeAgentAsync (openclawEnabled : Bool) (gw : GatewayBehavior)
    (clock : RunClock) (updateOk : Bool) (fallbackTs : String)
    (reg : Registry) (name : String) (params : Inputs) (runId : Nat)
    (db : DB) : DB × AgentResult × Registry :=
  let (r, _ops, reg') := dispatch openclawEnabled gw clock reg name params
  let db' := if runId ≠ 0 then updateRunRow updateOk db runId r fallbackTs
             else db
  (db', r, reg')

/-- Outcome of `POST /agents/<name>/run`. -/
inductive TriggerOutcome where
  | notFound
  | disabled
  | accepted (db : DB) (runId : Nat) (result : AgentResult) (reg : Registry)

/-- The body of `trigger_agent_run(name)` (`api/agents.py`, `7d1eb49`
side, lines 498–565) composed with the background thread it starts:
after the registry/enabled guards it pre-inserts a `running` row to get
a stable run id, then the worker runs `_execute_agent_async`. The
sequential composition is the linearization of the one worker thread
that owns the run id. -/
def triggerAgentRun (insertOk updateOk : Bool) (openclawEnabled : Bool)
    (gw : GatewayBehavior) (clock : RunClock) (reg : Registry)
    (name : String) (params : Inputs) (startedAt fallbackTs : String)
    (db : DB) : TriggerOutcome :=
  match lookupStr reg.agents name with
  | none => .notFound
  | some agent =>
    if agent.config.enabled = false then .disabled
    else
      let inputData := if params = [] then none
                       else some (encodeInputs params)
      let (db1, runId) := insertRunningRow insertOk db name inputData startedAt
      let (db2, r, reg') := executeAgentAsync openclawEnabled gw clock
        updateOk fallbackTs reg name params runId db1
      .accepted db2 runId r reg'

/-- One entry of `SchedulerManager._job_registry` (`scheduler.py`
lines 98–105): metadata plus the bound function, the latter abstracted
to an opaque identifier. -/
structure JobMeta where
  jobName : String
  description : String
  funcId : Nat
  trigger : String
  triggerArgs : List (String × String)
  enabled : Bool
deriving DecidableEq, Repr

/-- One job entry of the underlying APScheduler job store, as configured
by the `add_job` calls in `scheduler.py`: the bound function, trigger
type, display name, the one-shot `run_date` (for `'date'` triggers) and
the recurring trigger arguments. -/
structure SchedEntry where
  funcId : Nat
  trigger : String
  jobName : String
  runDate : Option String := none
  triggerArgs : List (String × String) := []
deriving DecidableEq, Repr

/-- APScheduler `add_job(..., id=…, replace_existing=…)`: adding under an
id already present replaces it when `replace_existing` is true and
raises `ConflictingIdError` (modelled as `none`) otherwise. -/
def addJob (replaceExisting : Bool) (sched : List (String × SchedEntry))
    (id : String) (e : SchedEntry) : Option (List (String × SchedEntry)) :=
  match lookupStr sched id with
  | some _ => if replaceExisting then some (updateStr sched id e) else none
  | none => some (sched ++ [(id, e)])

/-- `SchedulerManager` state: the `_job_registry` dict and the
underlying APScheduler job store. -/
structure SchedulerManager where
  jobRegistry : List (String × JobMeta)
  sched : List (String × SchedEntry)
deriving DecidableEq, Repr

/-- `SchedulerManager.trigger_job(job_id)` (`scheduler.py` lines
204–225): for a registered id, adds a new one-shot `'date'` job under
the fresh id `job_id + '_manual_' + <utc timestamp>` with
`replace_existing=False` and an immediate run date; an unknown id, or an
exception from `add_job`, yields `False` with the manager unchanged.
The timestamp suffix `ts` and the immediate `run_date` are passed in as
the clock observations of the call. -/
def SchedulerManager.triggerJob (mgr : SchedulerManager) (jobId : String)
    (ts : String) (runDate : String) : Bool × SchedulerManager :=
  match lookupStr mgr.jobRegistry jobId with
  | none => (false, mgr)
  | some meta =>
    let entry : SchedEntry := {
      funcId := meta.funcId
      trigger := "date"
      jobName := meta.jobName ++ " (manual)"
      runDate := some runDate }
    match addJob false mgr.sched (jobId ++ "_manual_" ++ ts) entry with
    | some sched' => (true, { mgr with sched := sched' })
    | none => (false, mgr)

/-- A fixed run clock for concrete evaluations. -/
def cClock : RunClock := ⟨"2026-01-05T10:00:00", "2026-01-05T10:00:01", 1000⟩

/-- An agent whose `execute` returns a successful native result. -/
def okAgent : Agent := {
  config := { name := "scanner" }
  exec := fun _ => .ok {
    agentName := "scanner"
    framework := "native"
    status := "success"
    output := "ranked list" } }

/-- An agent whose `execute` raises. -/
def boomAgent : Agent := {
  config := { name := "boom" }
  exec := fun _ => .raises "boom" }

/-- An agent registered but disabled in its config. -/
def offAgent : Agent := {
  config := { name := "idle1", enabled := false }
  exec := fun _ => .raises "must not be invoked" }

/-- Registry holding the successful agent. -/
def natReg : Registry := ⟨[("scanner", okAgent)]⟩

/-- Registry holding the raising agent. -/
def boomReg : Registry := ⟨[("boom", boomAgent)]⟩

/-- Registry holding the disabled agent. -/
def offReg : Registry := ⟨[("idle1", offAgent)]⟩

/-- An empty `agent_runs` table with the first AUTOINCREMENT id. -/
def db0 : DB := ⟨[], 1⟩

/-- A bridge behaviour whose gateway is down. -/
def gwDown : GatewayBehavior := ⟨false, .noTaskId, fun _ => sendFailResult "x"⟩

/-- A bridge that reports available but whose `send_task` returns no
task id. -/
def gwNoSend : GatewayBehavior := ⟨true, .noTaskId, fun _ => sendFailResult "x"⟩

/-- A bridge that reports available but whose `send_task` raises. -/
def gwRaise : GatewayBehavior := ⟨true, .raises "socket closed", fun _ => sendFailResult "x"⟩

/-! ## Helper lemmas on association lists -/

theorem lookupStr_update_self {α : Type} (l : List (String × α)) (k : String)
    (v : α) (h : (lookupStr l k).isSome) :
    lookupStr (updateStr l k v) k = some v := by
  induction l with
  | nil => simp [lookupStr] at h
  | cons p rest ih =>
    by_cases hk : p.1 = k
    · simp [lookupStr, updateStr, hk]
    · simp [lookupStr, updateStr, hk] at h ⊢
      exact ih h

theorem lookupStr_append_ne {α : Type} (l : List (String × α))
    (k k' : String) (v : α) (h : k' ≠ k) :
    lookupStr (l ++ [(k', v)]) k = lookupStr l k := by
  induction l with
  | nil => simp [lookupStr, h]
  | cons p rest ih =>
    by_cases hk : p.1 = k
    · simp [lookupStr, hk]
    · simp [lookupStr, hk, ih]

theorem lookupStr_append_self {α : Type} (l : List (String × α))
    (k : String) (v : α) (h : lookupStr l k = none) :
    lookupStr (l ++ [(k, v)]) k = some v := by
  induction l with
  | nil => simp [lookupStr]
  | cons p rest ih =>
    by_cases hk : p.1 = k
    · simp [lookupStr, hk] at h
    · simp [lookupStr, hk] at h ⊢
      exact ih h

theorem map_id_of_mem {α : Type} (l : List α) (f : α → α)
    (h : ∀ x ∈ l, f x = x) : l.map f = l := by
  induction l with
  | nil => rfl
  | cons x rest ih =>
    simp only [List.map_cons, h x (List.mem_cons_self x rest)]
    rw [ih (fun y hy => h y (List.mem_cons_of_mem x hy))]

/-! ## Claims about `AgentRegistry.run_agent` and `BaseAgent.run` -/

/-- C4: `BaseAgent.run` is total — it always yields a result — and when
the agent's `execute` raises, the exception is converted at this
boundary into an error Result carrying the exception message, never
propagated to the caller. -/
theorem c4_run_total_and_catches (clock : RunClock) (a : Agent)
    (inputs : Inputs) :
    (∃ r a', BaseAgent.run clock a inputs = (r, a')) ∧
    (∀ msg, a.exec inputs = .raises msg →
      (BaseAgent.run clock a inputs).1.status = "error" ∧
      (BaseAgent.run clock a inputs).1.error = some msg) := by
  refine ⟨⟨_, _, rfl⟩, ?_⟩
  intro msg h
  simp [BaseAgent.run, h]

/-- Witness for C4 at the concrete raising agent. -/
theorem c4_witness :
    boomAgent.exec [] = .raises "boom" ∧
    (BaseAgent.run cClock boomAgent []).1.status = "error" ∧
    (BaseAgent.run cClock boomAgent []).1.error = some "boom" :=
  ⟨rfl, (c4_run_total_and_catches cClock boomAgent []).2 "boom" rfl⟩

/-- C3 counterexample: `run_agent` on an unregistered name returns
`None` (the Python `Optional` miss), not a well-formed error Result with
status `'error'` as the claim states. -/
theorem c3_counterexample :
    (AgentRegistry.runAgent cClock false ⟨[]⟩ "ghost" [] db0).1 = none :=
  rfl

/-- C3 amended: for every name not registered, `run_agent` returns
`None` and leaves the registry and the `agent_runs` table untouched. -/
theorem c3_unknown_agent_none (clock : RunClock) (dbFail : Bool)
    (reg : Registry) (name : String) (inputs : Inputs) (db : DB)
    (h : lookupStr reg.agents name = none) :
    AgentRegistry.runAgent clock dbFail reg name inputs db =
      (none, reg, db) := by
  simp [AgentRegistry.runAgent, h]

/-- Witness for C3 at the empty registry. -/
theorem c3_witness :
    lookupStr (Registry.agents ⟨[]⟩) "ghost" = none ∧
    AgentRegistry.runAgent cClock false ⟨[]⟩ "ghost" [] db0 =
      (none, ⟨[]⟩, db0) :=
  ⟨rfl, c3_unknown_agent_none cClock false ⟨[]⟩ "ghost" [] db0 rfl⟩

/-- C5: `run_agent` on a registered but disabled agent returns an error
Result marked `framework='disabled'` (distinguishable from a runtime
error, whose framework would name an execution backend), with the
disabled reason in `error`, without invoking the agent and without
touching the registry or the `agent_runs` table. -/
theorem c5_disabled_precondition (clock : RunClock) (dbFail : Bool)
    (reg : Registry) (name : String) (inputs : Inputs) (db : DB)
    (agent : Agent) (hl : lookupStr reg.agents name = some agent)
    (hd : agent.config.enabled = false) :
    AgentRegistry.runAgent clock dbFail reg name inputs db =
      (some (disabledResult name), reg, db) ∧
    (disabledResult name).framework = "disabled" ∧
    (disabledResult name).status = "error" ∧
    (disabledResult name).error = some "Agent is disabled" := by
  refine ⟨?_, rfl, rfl, rfl⟩
  simp [AgentRegistry.runAgent, hl, hd]

/-- Witness for C5 at the concrete disabled agent. -/
theorem c5_witness :
    lookupStr offReg.agents "idle1" = some offAgent ∧
    offAgent.config.enabled = false ∧
    AgentRegistry.runAgent cClock false offReg "idle1" [] db0 =
      (some (disabledResult "idle1"), offReg, db0) :=
  ⟨rfl, rfl,
    (c5_disabled_precondition cClock false offReg "idle1" [] db0 offAgent
      rfl rfl).1⟩

/-- C10: a persistence failure is swallowed — for a registered, enabled
agent, `run_agent` still returns the run's Result (and the updated
agent) while the `agent_runs` table is left exactly as it was, and no
exception escapes (`runAgent` is a total function). -/
theorem c10_persist_failure_swallowed (clock : RunClock) (reg : Registry)
    (name : String) (inputs : Inputs) (db : DB) (agent : Agent)
    (hl : lookupStr reg.agents name = some agent)
    (he : agent.config.enabled = true) :
    AgentRegistry.runAgent clock true reg name inputs db =
      (some (BaseAgent.run clock agent inputs).1,
       ⟨updateStr reg.agents name (BaseAgent.run clock agent inputs).2⟩,
       db) := by
  simp [AgentRegistry.runAgent, hl, he, persistResult]

/-- Witness for C10: the concrete successful agent returns a success
Result while the failed write leaves the table empty — a success Result
with no `agent_runs` row. -/
theorem c10_witness :
    lookupStr natReg.agents "scanner" = some okAgent ∧
    okAgent.config.enabled = true ∧
    (AgentRegistry.runAgent cClock true natReg "scanner" [] db0).1 =
      some (BaseAgent.run cClock okAgent []).1 ∧
    (BaseAgent.run cClock okAgent []).1.status = "success" ∧
    (AgentRegistry.runAgent cClock true natReg "scanner" [] db0).2.2.rows = [] := by
  refine ⟨rfl, rfl, ?_, rfl, ?_⟩
  · rw [c10_persist_failure_swallowed cClock natReg "scanner" [] db0 okAgent
      rfl rfl]
  · rw [c10_persist_failure_swallowed cClock natReg "scanner" [] db0 okAgent
      rfl rfl]
    rfl

/-- C7 counterexample: for the registered, enabled agent whose `execute`
raises, `run_agent` completes but the agent's `run_count` is still its
pre-call value 0, not incremented — the increment happens only on the
normal-return path of `BaseAgent.run`. -/
theorem c7_counterexample :
    boomAgent.runCount = 0 ∧
    (lookupStr (AgentRegistry.runAgent cClock false boomReg "boom" []
        db0).2.1.agents "boom").map Agent.runCount = some 0 :=
  ⟨rfl, rfl⟩

/-- C7 amended: for a registered, enabled agent, `run_agent` increments
the agent's `run_count` by exactly one when `execute` returns normally
(whether the Result's status is success or error), and leaves
`run_count` unchanged when `execute` raises. -/
theorem c7_run_count_increment (clock : RunClock) (dbFail : Bool)
    (reg : Registry) (name : String) (inputs : Inputs) (db : DB)
    (agent : Agent) (hl : lookupStr reg.agents name = some agent)
    (he : agent.config.enabled = true) :
    (∀ r, agent.exec inputs = .ok r →
      (lookupStr (AgentRegistry.runAgent clock dbFail reg name inputs
          db).2.1.agents name).map Agent.runCount =
        some (agent.runCount + 1)) ∧
    (∀ msg, agent.exec inputs = .raises msg →
      (lookupStr (AgentRegistry.runAgent clock dbFail reg name inputs
          db).2.1.agents name).map Agent.runCount =
        some agent.runCount) := by
  have hsome : (lookupStr reg.agents name).isSome := by rw [hl]; rfl
  constructor
  · intro r hr
    simp only [AgentRegistry.runAgent, hl, he, Bool.true_eq_false,
      if_false, BaseAgent.run, hr]
    rw [lookupStr_update_self _ _ _ hsome]
    rfl
  · intro msg hm
    simp only [AgentRegistry.runAgent, hl, he, Bool.true_eq_false,
      if_false, BaseAgent.run, hm]
    rw [lookupStr_update_self _ _ _ hsome]
    rfl

/-- Witness for C7 at the concrete successful agent: run count goes from
0 to 1. -/
theorem c7_witness :
    lookupStr natReg.agents "scanner" = some okAgent ∧
    okAgent.config.enabled = true ∧
    (lookupStr (AgentRegistry.runAgent cClock false natReg "scanner" []
        db0).2.1.agents "scanner").map Agent.runCount = some 1 := by
  refine ⟨rfl, rfl, ?_⟩
  exact (c7_run_count_increment cClock false natReg "scanner" [] db0
    okAgent rfl rfl).1 _ rfl

/-! ## Claims about `_dispatch` -/

/-- C8: with the gateway-enabled flag clear, `_dispatch` performs no
gateway operation at all — no bridge construction, no availability
probe, no send — and its outcome is independent of the gateway's
behaviour: any two bridge behaviours yield the identical result. -/
theorem c8_gateway_disabled_untouched (gw gw' : GatewayBehavior)
    (clock : RunClock) (reg : Registry) (name : String) (params : Inputs) :
    (dispatch false gw clock reg name params).2.1 = [] ∧
    dispatch false gw clock reg name params =
      dispatch false gw' clock reg name params := by
  unfold dispatch
  cases h : lookupStr reg.agents name <;> simp [h]

/-- C2 counterexample: gateway enabled and available, but `send_task`
returns `None` (no task id) — `run_task` then returns its own
`framework='openclaw'` error Result and `_dispatch` returns it directly;
the native backend is never reached, contradicting the claimed
`backend_used == 'native'`. -/
theorem c2_counterexample :
    (dispatch true gwNoSend cClock natReg "scanner" []).1.framework =
      "openclaw" ∧
    ("openclaw" : String) ≠ "native" :=
  ⟨rfl, by decide⟩

/-- The property that a concrete agent's `execute` only produces
results tagged `framework='native'` — true of every agent subclass in
`backend/agents/` — used to phrase the amended C2. -/
def execYieldsNative (a : Agent) (inputs : Inputs) : Prop :=
  ∀ r, a.exec inputs = .ok r → r.framework = "native"

/-- C2 amended: when the gateway is enabled and reports available but
`send_task` *raises*, the exception falls out of `run_task`, `_dispatch`
catches it and returns the registered agent's own `run()` Result; when
the agent's results are native-tagged (as for every agent in the repo),
the returned framework is `'native'`. (When `send_task` instead returns
no task id, the gateway's error Result is returned — see the
counterexample.) -/
theorem c2_sendtask_raise_falls_back (gw : GatewayBehavior)
    (clock : RunClock) (reg : Registry) (name : String) (params : Inputs)
    (agent : Agent) (msg : String) (ha : gw.available = true)
    (hs : gw.send = .raises msg)
    (hl : lookupStr reg.agents name = some agent) :
    (dispatch true gw clock reg name params).1 =
      (BaseAgent.run clock agent params).1 ∧
    (execYieldsNative agent params →
      (dispatch true gw clock reg name params).1.framework = "native") := by
  have hmain : (dispatch true gw clock reg name params).1 =
      (BaseAgent.run clock agent params).1 := by
    simp [dispatch, OpenClawBridge.runTask, ha, hs, hl]
  refine ⟨hmain, fun hn => ?_⟩
  rw [hmain]
  cases hx : agent.exec params with
  | ok r => simp [BaseAgent.run, hx, hn r hx]
  | raises m => simp [BaseAgent.run, hx]

/-- Witness for C2 at the concrete raising bridge and successful native
agent. -/
theorem c2_witness :
    gwRaise.available = true ∧
    gwRaise.send = .raises "socket closed" ∧
    lookupStr natReg.agents "scanner" = some okAgent ∧
    (dispatch true gwRaise cClock natReg "scanner" []).1.framework =
      "native" := by
  refine ⟨rfl, rfl, rfl, ?_⟩
  exact (c2_sendtask_raise_falls_back gwRaise cClock natReg "scanner" []
    okAgent "socket closed" rfl rfl rfl).2 (fun r hr => by
      cases hr
      rfl)

/-! ## Claims about the triggered-run persistence path -/

/-- The `agent_runs` rows visible after a trigger call (empty for the
rejected outcomes, which write nothing). -/
def TriggerOutcome.dbRows : TriggerOutcome → List RunRow
  | .accepted db _ _ _ => db.rows
  | _ => []

/-- C1 counterexample: a triggered invocation whose terminal UPDATE
fails (its try/except swallows the write error) finishes with exactly
one row for the invocation still at status `'running'` — the claim's
"never a row left at `'running'` … including when the terminal UPDATE
fails" is violated. -/
theorem c1_counterexample :
    (triggerAgentRun true false false gwDown cClock natReg "scanner" []
      "s0" "f0" db0).dbRows.map RunRow.status = ["running"] :=
  rfl

/-- C1 amended: when the pre-insert and the terminal UPDATE both
succeed, a triggered invocation adds exactly one `agent_runs` row —
whichever backend serviced the dispatch, whose result is persisted once,
after dispatch resolves — and that row's status equals the dispatch
result's status, terminal whenever that status is `success`/`error`.
If the insert fails no row is written (and the update is skipped); if
the update fails the single row remains at `running` (see the
counterexample). -/
theorem c1_one_terminal_row (cfg : Bool) (gw : GatewayBehavior)
    (clock : RunClock) (reg : Registry) (name : String) (params : Inputs)
    (startedAt fallbackTs : String) (db : DB) (agent : Agent)
    (hl : lookupStr reg.agents name = some agent)
    (he : agent.config.enabled = true)
    (hpos : 1 ≤ db.nextId)
    (hfresh : ∀ row ∈ db.rows, row.id ≠ db.nextId)
    (hterm : (dispatch cfg gw clock reg name params).1.status = "success" ∨
             (dispatch cfg gw clock reg name params).1.status = "error") :
    ∃ row reg',
      triggerAgentRun true true cfg gw clock reg name params startedAt
          fallbackTs db =
        .accepted ⟨db.rows ++ [row], db.nextId + 1⟩ db.nextId
          (dispatch cfg gw clock reg name params).1 reg' ∧
      row.id = db.nextId ∧
      row.status = (dispatch cfg gw clock reg name params).1.status ∧
      (row.status = "success" ∨ row.status = "error") := by
  rcases hD : dispatch cfg gw clock reg name params with ⟨r, ops, reg2⟩
  rw [hD] at hterm
  simp only at hterm
  have hne : ¬ db.nextId = 0 := by omega
  refine ⟨{
      id := db.nextId
      agentName := name
      framework := r.framework
      status := r.status
      inputData := if params = [] then none else some (encodeInputs params)
      outputData := if r.output = "" then none else some (r.output.take 10000)
      tokensInput := r.tokensInput
      tokensOutput := r.tokensOutput
      estimatedCost := r.estimatedCost
      durationMs := r.durationMs
      error := r.error
      metadata := none
      startedAt := some startedAt
      completedAt := some (if r.completedAt = "" then fallbackTs
                           else r.completedAt) }, reg2, ?_, rfl, by simp, ?_⟩
  · simp only [triggerAgentRun, hl, he, Bool.true_eq_false, if_false,
      insertRunningRow, if_true, executeAgentAsync, hD, ne_eq, hne,
      not_false_eq_true, if_pos, updateRunRow, List.map_append]
    rw [map_id_of_mem db.rows _ (fun x hx => by
      simp [if_neg (hfresh x hx)])]
    simp
  · simpa using hterm

/-- Witness for C1 at a concrete successful native run on an empty
table. -/
theorem c1_witness :
    lookupStr natReg.agents "scanner" = some okAgent ∧
    okAgent.config.enabled = true ∧
    (1 : Nat) ≤ db0.nextId ∧
    (∀ row ∈ db0.rows, row.id ≠ db0.nextId) ∧
    ((dispatch false gwDown cClock natReg "scanner" []).1.status =
        "success" ∨
     (dispatch false gwDown cClock natReg "scanner" []).1.status =
        "error") ∧
    ∃ row reg',
      triggerAgentRun true true false gwDown cClock natReg "scanner" []
          "s0" "f0" db0 =
        .accepted ⟨db0.rows ++ [row], db0.nextId + 1⟩ db0.nextId
          (dispatch false gwDown cClock natReg "scanner" []).1 reg' ∧
      row.id = db0.nextId ∧
      row.status =
        (dispatch false gwDown cClock natReg "scanner" []).1.status ∧
      (row.status = "success" ∨ row.status = "error") := by
  refine ⟨rfl, rfl, by decide, by simp [db0], Or.inl rfl, ?_⟩
  exact c1_one_terminal_row false gwDown cClock natReg "scanner" []
    "s0" "f0" db0 okAgent rfl rfl (by decide) (by simp [db0])
    (Or.inl rfl)

/-! ## Claims about `SchedulerManager` -/

theorem manual_id_ne (jobId ts : String) : jobId ++ "_manual_" ++ ts ≠ jobId := by
  intro h
  have hlen := congrArg (fun s => s.data.length) h
  have h8 : "_manual_".data.length = 8 := rfl
  simp only [String.data_append, List.length_append, h8] at hlen
  omega

/-- C9: `trigger_job` on a registered id schedules the one-shot
immediate execution under the fresh `<id>_manual_<ts>` key with a
`'date'` trigger, and leaves the original job untouched: the whole
`_job_registry` (trigger, trigger args, enabled flag included) is
unchanged and the underlying scheduler entry stored under the original
id is exactly as before the call. -/
theorem c9_trigger_job_frame (mgr : SchedulerManager)
    (jobId ts runDate : String) (meta : JobMeta)
    (hl : lookupStr mgr.jobRegistry jobId = some meta) :
    (mgr.triggerJob jobId ts runDate).2.jobRegistry = mgr.jobRegistry ∧
    lookupStr (mgr.triggerJob jobId ts runDate).2.sched jobId =
      lookupStr mgr.sched jobId ∧
    ((mgr.triggerJob jobId ts runDate).1 = true →
      lookupStr (mgr.triggerJob jobId ts runDate).2.sched
          (jobId ++ "_manual_" ++ ts) =
        some { funcId := meta.funcId, trigger := "date",
               jobName := meta.jobName ++ " (manual)",
               runDate := some runDate }) := by
  have hne := manual_id_ne jobId ts
  unfold SchedulerManager.triggerJob addJob
  rw [hl]
  cases hx : lookupStr mgr.sched (jobId ++ "_manual_" ++ ts) with
  | some e => simp
  | none =>
    simp [lookupStr_append_ne _ _ _ _ hne,
      lookupStr_append_self _ _ _ hx]

/-- A concrete recurring job descriptor for the C9 witness. -/
def briefMeta : JobMeta := {
  jobName := "Morning Briefing"
  description := "digest"
  funcId := 7
  trigger := "cron"
  triggerArgs := [("hour", "8")]
  enabled := true }

/-- The matching underlying scheduler entry for `briefMeta`. -/
def briefSched : SchedEntry := {
  funcId := 7
  trigger := "cron"
  jobName := "Morning Briefing"
  triggerArgs := [("hour", "8")] }

/-- A one-job scheduler manager fixture. -/
def mgr0 : SchedulerManager :=
  ⟨[("morning_briefing", briefMeta)], [("morning_briefing", briefSched)]⟩

/-- Witness for C9 at the concrete one-job manager: registry and the
original underlying entry are unchanged by `trigger_job`. -/
theorem c9_witness :
    lookupStr mgr0.jobRegistry "morning_briefing" = some briefMeta ∧
    (mgr0.triggerJob "morning_briefing" "20260105" "now").2.jobRegistry =
      mgr0.jobRegistry ∧
    lookupStr (mgr0.triggerJob "morning_briefing" "20260105" "now").2.sched
        "morning_briefing" =
      lookupStr mgr0.sched "morning_briefing" := by
  refine ⟨rfl, ?_, ?_⟩
  · exact (c9_trigger_job_frame mgr0 "morning_briefing" "20260105" "now"
      briefMeta rfl).1
  · exact (c9_trigger_job_frame mgr0 "morning_briefing" "20260105" "now"
      briefMeta rfl).2.1

end StockPulse
